import Mathlib

/-!
# Verification of the AHMIDIProcessor message pipeline

Shallow embedding of the core of the AHMIDIProcessor repository:
the hex-token helpers (helpers/hex.py), the message accumulator and
completion check (main.py), the dispatcher (helpers/midi.py), the SysEx
and NRPN decoders (helpers/sysex.py, helpers/nrpn.py), the
event-to-address mapper (main.py) and the OSC publisher (helpers/osc.py).

Python exceptions are modelled with `Except PyErr`; Python dictionaries
whose keys are strings are modelled as association lists; hex-byte
tokens are modelled as Lean strings, matching the token form the code
operates on.
-/

namespace AHMIDI

/-- The Python exception kinds raised by the embedded code. -/
inductive PyErr where
  | indexError
  | valueError
  | typeError
  | keyError
  | unicodeError
deriving DecidableEq, Repr

/-- Values stored in a decoded-event dictionary: Python str, int, bool or
None, the only value shapes the decoders produce. -/
inductive Value where
  | vStr : String → Value
  | vInt : Int → Value
  | vBool : Bool → Value
  | vNull : Value
deriving DecidableEq, Repr

/-- A semantic event: a Python dict with string keys, in insertion order. -/
abbrev Event := List (String × Value)

/-- `dict.get(k)` on an event dictionary. -/
def Event.get (e : Event) (k : String) : Option Value :=
  (e.find? (fun p => p.1 == k)).map Prod.snd

/-- `m.get(k)` on a str-to-str dict. -/
def lookupStr (m : List (String × String)) (k : String) : Option String :=
  (m.find? (fun p => p.1 == k)).map Prod.snd

/-- `m.get(k, d)` on a str-to-str dict. -/
def dictGet (m : List (String × String)) (k d : String) : String :=
  (lookupStr m k).getD d

/-- `m.get(k)` on a str-to-int dict. -/
def lookupNat (m : List (String × Nat)) (k : String) : Option Nat :=
  (m.find? (fun p => p.1 == k)).map Prod.snd

/-- Python `l[i]` on a list: the element, or IndexError when out of range. -/
def listGet {α : Type} (l : List α) (i : Nat) : Except PyErr α :=
  match l.get? i with
  | some a => Except.ok a
  | none => Except.error PyErr.indexError

/-- Python `s[i]` on a string. -/
def strAt (s : String) (i : Nat) : Except PyErr Char :=
  match s.data.get? i with
  | some c => Except.ok c
  | none => Except.error PyErr.indexError

/-- Python `s[n:]` on a string. -/
def strDrop (s : String) (n : Nat) : String :=
  String.mk (s.data.drop n)

/-- Python `s[:n]` on a string. -/
def strTake (s : String) (n : Nat) : String :=
  String.mk (s.data.take n)

/-- Lift an `Option` into `Except`, raising the given exception on `none`. -/
def ofOption {α : Type} (o : Option α) (e : PyErr) : Except PyErr α :=
  match o with
  | some a => Except.ok a
  | none => Except.error e

/-- Whether an `Except` computation returned normally. -/
def exceptIsOk {α : Type} : Except PyErr α → Bool
  | Except.ok _ => true
  | Except.error _ => false

/-! ## helpers/hex.py -/

/-- `to_padded_hex` (helpers/hex.py line 17, identically duplicated as
`MIDIProcessor.to_padded_hex` in helpers/midi.py line 75): render an
integer as a lowercase hexadecimal string, zero-padded on the left to
`desired_len` digits, with a `0x` marker in front (the Python format
string `0x` followed by the value formatted with format code
`0{desired_len}x`). -/
def to_padded_hex (integer : Nat) (desired_len : Nat := 2) : String :=
  let ds := Nat.toDigits 16 integer
  "0x" ++ String.mk (List.replicate (desired_len - ds.length) '0' ++ ds)

/-- The last `n` elements of a list — the contents a `deque(maxlen=n)`
retains after extending past its capacity. -/
def takeRight {α : Type} (l : List α) (n : Nat) : List α :=
  l.drop (l.length - n)

/-- `hexify` (helpers/hex.py line 3, identically duplicated as
`MIDIProcessor.hexify` in helpers/midi.py line 61): map each byte to its
padded hex token, collected into a `deque(maxlen=128)` — so only the
last 128 tokens are kept. -/
def hexify (message_data : List Nat) : List String :=
  takeRight (message_data.map (fun b => to_padded_hex b 2)) 128

/-- The numeric value of one hexadecimal digit character, as Python
`int(_, 16)` accepts it (both cases). -/
def hexDigitVal (c : Char) : Option Nat :=
  if '0' ≤ c ∧ c ≤ '9' then some (c.toNat - '0'.toNat)
  else if 'a' ≤ c ∧ c ≤ 'f' then some (c.toNat - 'a'.toNat + 10)
  else if 'A' ≤ c ∧ c ≤ 'F' then some (c.toNat - 'A'.toNat + 10)
  else none

/-- Accumulate hex digits left to right. -/
def parseHexCore : List Char → Nat → Option Nat
  | [], acc => some acc
  | c :: cs, acc =>
    match hexDigitVal c with
    | some v => parseHexCore cs (acc * 16 + v)
    | none => none

/-- Python `int(s, 16)` on the token shapes arising in this program: an
optional `0x`/`0X` marker followed by a nonempty run of hex digits
(no sign, whitespace or underscores appear in the tokens the code
parses). `none` models the ValueError Python raises on anything else. -/
def int_hex (s : String) : Option Nat :=
  let cs := s.data
  let cs := if cs.take 2 = ['0', 'x'] ∨ cs.take 2 = ['0', 'X'] then cs.drop 2 else cs
  if cs = [] then none else parseHexCore cs 0

/-- A lowercase hexadecimal digit character. -/
def isLowerHexDigit (c : Char) : Bool :=
  ('0' ≤ c && c ≤ '9') || ('a' ≤ c && c ≤ 'f')

/-! ## helpers/data.py — the lookup tables loaded from templates.json

The concrete templates.json file is configuration, not part of the core
source; the tables are therefore kept abstract, with only the shapes the
code relies on (`message_types` maps a hex nibble to an entry holding an
optional integer `length` and an optional `subtype` map, exactly the two
keys main.py reads). -/

/-- One entry of the `message_types` table: the optional integer value of
its `length` key and the optional dict value of its `subtype` key. -/
structure MsgTypeEntry where
  lengthVal : Option Nat
  subtypeMap : Option (List (String × Nat))
deriving DecidableEq, Repr

/-- `message_types.get(c)`. -/
def lookupMT (m : List (Char × MsgTypeEntry)) (c : Char) : Option MsgTypeEntry :=
  (m.find? (fun p => p.1 == c)).map Prod.snd

/-- The fields of `MessageTemplates` (helpers/data.py) that the decoders
read: the message-length table, the SysEx header token template, and the
console / MMC / channel name maps. -/
structure Templates where
  message_types : List (Char × MsgTypeEntry)
  sysex_header : List String
  console_types : List (String × String)
  mmc_commands : List (String × String)
  channel_definitions : List (String × String)

/-! ## helpers/sysex.py — SysExHandler -/

/-- The initial `self.result` placeholder of both handlers: the Python
literal `[{}]`, a one-element list holding an empty dict. -/
def placeholderResult : List Event := [[]]

/-- The slice `message[header_len:-1]` or `message[1:-1]` computed by
`SysExHandler.split_message` lines 33-38: strip the header template when
the message starts with it (otherwise just the start byte), and the
trailing end byte. -/
def sysex_extracted (hs : List String) (message : List String) : List String :=
  if message.take hs.length = hs then (message.drop hs.length).dropLast
  else (message.drop 1).dropLast

/-- `SysExHandler.split_message`: `none` models the `(None, None)`
returns for a message shorter than 3 tokens or an empty stripped slice;
otherwise the pair `(action, msg_data)` of the slice's head and tail. -/
def split_message (hs : List String) (message : List String) : Option (String × List String) :=
  if message.length < 3 then none
  else
    match sysex_extracted hs message with
    | [] => none
    | a :: rest => some (a, rest)

/-- A single byte decoded by `bytes.decode()`: ASCII bytes map to their
character; the channel-name tokens the code decodes are single ASCII
bytes, and a byte ≥ 0x80 alone raises UnicodeDecodeError. -/
def byteToChar (b : Nat) : Except PyErr Char :=
  if b < 128 then Except.ok (Char.ofNat b) else Except.error PyErr.unicodeError

/-- `bytearray.fromhex`: consume hex-digit characters in pairs, one byte
per pair; an odd count or a non-hex character raises ValueError. -/
def fromhex_bytes : List Char → Except PyErr (List Nat)
  | [] => Except.ok []
  | [_] => Except.error PyErr.valueError
  | c1 :: c2 :: rest => do
    let h ← ofOption (hexDigitVal c1) PyErr.valueError
    let l ← ofOption (hexDigitVal c2) PyErr.valueError
    let bs ← fromhex_bytes rest
    pure ((16 * h + l) :: bs)

/-- `bytearray.fromhex(item[2:]).decode()` for one channel-name token. -/
def decode_name_token (tok : String) : Except PyErr (List Char) := do
  let bs ← fromhex_bytes (strDrop tok 2).data
  bs.mapM byteToChar

/-- `.rstrip('\x00')`: trim trailing NUL characters. -/
def rstripNul (cs : List Char) : List Char :=
  (cs.reverse.dropWhile (fun c => c = Char.ofNat 0)).reverse

/-- `SysExHandler.get_console_info` (action 0x11): a 3-token payload
yields the console-type event and the firmware-version event; any other
payload length logs an error and leaves the placeholder result. -/
def get_console_info (t : Templates) (d : List String) : Except PyErr (List Event) :=
  match d with
  | [box_id, ver_maj, ver_min] => do
    let maj ← ofOption (int_hex ver_maj) PyErr.valueError
    let minr ← ofOption (int_hex ver_min) PyErr.valueError
    pure [[("result_type", Value.vStr "console_type"),
           ("data", Value.vStr (dictGet t.console_types box_id "Unknown"))],
          [("result_type", Value.vStr "console_fwversion"),
           ("data", Value.vStr (toString maj ++ "." ++ toString minr))]]
  | _ => pure placeholderResult

/-- `SysExHandler.get_channel_name` (action 0x02): payload head is the
channel index, the remaining tokens decode bytewise into the name, with
trailing NULs trimmed. -/
def get_channel_name (t : Templates) (d : List String) : Except PyErr (List Event) :=
  match d with
  | [] => Except.error PyErr.indexError
  | ch_number :: ch_name_array => do
    let pieces ← ch_name_array.mapM decode_name_token
    let name := rstripNul pieces.flatten
    pure [[("result_type", Value.vStr "channel_name"),
           ("channel", Value.vStr (dictGet t.channel_definitions ch_number "Unknown")),
           ("data", Value.vStr (String.mk name))]]

/-- `SysExHandler.handle_end_of_sync` (action 0x14). -/
def handle_end_of_sync : List Event :=
  [[("result_type", Value.vStr "function"),
    ("function", Value.vStr "end-of-sync"),
    ("data", Value.vNull)]]

/-- `SysExHandler.handle_mmc_action` (action 0x7f): resolve
`msg_data[2]` through the MMC-command map, default "Unknown". -/
def handle_mmc_action (t : Templates) (d : List String) : Except PyErr (List Event) := do
  let mmc_action ← listGet d 2
  pure [[("result_type", Value.vStr "mmc_action"),
         ("action", Value.vStr (dictGet t.mmc_commands mmc_action "Unknown")),
         ("data", Value.vNull)]]

/-- `SysExHandler.handle_action`: the action dispatch table; actions
outside the table (and the print-only 0x13 meter branch) leave the
placeholder result. -/
def handle_action (t : Templates) (action : String) (d : List String) :
    Except PyErr (List Event) :=
  if action = "0x02" then get_channel_name t d
  else if action = "0x11" then get_console_info t d
  else if action = "0x13" then pure placeholderResult
  else if action = "0x14" then pure handle_end_of_sync
  else if action = "0x7f" then handle_mmc_action t d
  else pure placeholderResult

/-- The `result` attribute of a constructed `SysExHandler`: split the
message, and run the action handler only when both the action string and
the payload list are truthy (`if self.action and self.msg_data`). -/
def sysexResult (t : Templates) (message : List String) : Except PyErr (List Event) :=
  match split_message t.sysex_header message with
  | none => pure placeholderResult
  | some (action, msg_data) =>
    if action ≠ "" ∧ msg_data ≠ [] then handle_action t action msg_data
    else pure placeholderResult

/-! ## helpers/nrpn.py — NRPNHandler -/

/-- `NRPNHandler.get_fader_position` (parameter 0x17): channel from
`message[2]`, data is the literal placeholder string. -/
def get_fader_position (t : Templates) (message : List String) : Except PyErr (List Event) := do
  let ch_number ← listGet message 2
  pure [[("result_type", Value.vStr "channel_fader"),
         ("channel", Value.vStr (dictGet t.channel_definitions ch_number "Unknown")),
         ("data", Value.vStr "placeholder")]]

/-- `NRPNHandler.get_pan_position` (parameter 0x16): channel from
`message[2]`, data is `int(message[8], 16) - 37`. -/
def get_pan_position (t : Templates) (message : List String) : Except PyErr (List Event) := do
  let ch_number ← listGet message 2
  let v8 ← listGet message 8
  let v ← ofOption (int_hex v8) PyErr.valueError
  pure [[("result_type", Value.vStr "channel_pan"),
         ("channel", Value.vStr (dictGet t.channel_definitions ch_number "Unknown")),
         ("data", Value.vInt ((v : Int) - 37))]]

/-- `NRPNHandler.get_pafl_select` (parameter 0x51): data is
`bool(int(message[8], 16))`. -/
def get_pafl_select (t : Templates) (message : List String) : Except PyErr (List Event) := do
  let ch_number ← listGet message 2
  let v8 ← listGet message 8
  let v ← ofOption (int_hex v8) PyErr.valueError
  pure [[("result_type", Value.vStr "pafl_select"),
         ("channel", Value.vStr (dictGet t.channel_definitions ch_number "Unknown")),
         ("data", Value.vBool (v != 0))]]

/-- `NRPNHandler.get_ch_preamp_source` (parameter 0x57): data resolved
via the two-entry source map, default "Unknown". -/
def get_ch_preamp_source (t : Templates) (message : List String) : Except PyErr (List Event) := do
  let ch_number ← listGet message 2
  let v8 ← listGet message 8
  pure [[("result_type", Value.vStr "ch_preamp_source"),
         ("channel", Value.vStr (dictGet t.channel_definitions ch_number "Unknown")),
         ("data", Value.vStr (dictGet [("0x00", "local"), ("0x01", "dsnake")] v8 "Unknown"))]]

/-- `NRPNHandler.get_ch_usb_source` (parameter 0x12): data resolved via
the two-entry source map, default "Unknown". -/
def get_ch_usb_source (t : Templates) (message : List String) : Except PyErr (List Event) := do
  let ch_number ← listGet message 2
  let v8 ← listGet message 8
  pure [[("result_type", Value.vStr "ch_usb_source"),
         ("channel", Value.vStr (dictGet t.channel_definitions ch_number "Unknown")),
         ("data", Value.vStr (dictGet [("0x00", "preamp"), ("0x01", "usb")] v8 "Unknown"))]]

/-- `NRPNHandler.handle_parameter`: the parameter-id dispatch table;
unrecognised parameter ids leave the placeholder result. -/
def handle_parameter (t : Templates) (message : List String) (parameter : String) :
    Except PyErr (List Event) :=
  if parameter = "0x12" then get_ch_usb_source t message
  else if parameter = "0x16" then get_pan_position t message
  else if parameter = "0x17" then get_fader_position t message
  else if parameter = "0x51" then get_pafl_select t message
  else if parameter = "0x57" then get_ch_preamp_source t message
  else pure placeholderResult

/-- The `result` attribute of a constructed `NRPNHandler`: the
constructor calls `handle_parameter(message[5])` (IndexError on a
message shorter than 6 tokens). -/
def nrpnResult (t : Templates) (message : List String) : Except PyErr (List Event) := do
  let p ← listGet message 5
  handle_parameter t message p

/-! ## helpers/midi.py — MIDIProcessor.process (the Dispatcher) -/

/-- The outcome of `MIDIProcessor.process`: either the `result`
attribute keeps its initial value `{}` (a dict, not a list — no
dispatch-map entry matched), or it is replaced by a handler's event
list. -/
inductive ProcResult where
  | unrouted
  | events : List Event → ProcResult
deriving DecidableEq, Repr

/-- The `dispatch_map` of `MIDIProcessor.process`, keyed by
`"0xf0"` (SysExHandler) and `"0xb"` (NRPNHandler). -/
def dispatchLookup (t : Templates) (msg : List String) (key : String) :
    Option (Except PyErr (List Event)) :=
  if key = "0xf0" then some (sysexResult t msg)
  else if key = "0xb" then some (nrpnResult t msg)
  else none

/-- `MIDIProcessor.process`: classify by `message[0]` — an exact
dispatch-map hit, else (when the token is longer than 2 characters) a
hit on `message_type[:2]`, else the result attribute keeps its initial
`{}`. -/
def MIDIProcessor.process (t : Templates) (msg : List String) : Except PyErr ProcResult :=
  match msg with
  | [] => Except.error PyErr.indexError
  | message_type :: _ =>
    match dispatchLookup t msg message_type with
    | some r => r.map ProcResult.events
    | none =>
      if 2 < message_type.length then
        match dispatchLookup t msg (strTake message_type 2) with
        | some r => r.map ProcResult.events
        | none => Except.ok ProcResult.unrouted
      else Except.ok ProcResult.unrouted

/-! ## main.py — the Accumulator -/

/-- `AHMIDIProcessor.get_expected_length`: read the high nibble
(character 2) of the first token, try the `length` key of its
message-type entry, and otherwise the nested `subtype` map keyed by the
second token without its `0x` marker. The fallthrough subscripts
`message_types[message_type]["subtype"]` and `message[1]` raise when
absent. -/
def get_expected_length (t : Templates) (message : List String) : Except PyErr (Option Nat) :=
  match message with
  | [] => Except.ok none
  | m0 :: _ => do
    let message_type ← strAt m0 2
    match (lookupMT t.message_types message_type).bind (fun e => e.lengthVal) with
    | some n => pure (some n)
    | none => do
      let entry ← ofOption (lookupMT t.message_types message_type) PyErr.keyError
      let sub ← ofOption entry.subtypeMap PyErr.keyError
      let m1 ← listGet message 1
      pure (lookupNat sub (strDrop m1 2))

/-- `AHMIDIProcessor.is_complete_midi_message`: empty buffer → the
falsy `None` return (modelled `false`); a buffer opening with the SysEx
start marker is complete exactly when its last token is the end marker;
any other buffer is complete exactly when its length equals the
table-resolved expected length (`None` equals no length). -/
def is_complete_midi_message (t : Templates) (message : List String) : Except PyErr Bool :=
  match message with
  | [] => Except.ok false
  | m0 :: _ =>
    if m0 = "0xf0" then Except.ok (message.getLast? == some "0xf7")
    else do
      let el ← get_expected_length t message
      pure (el == some message.length)

/-- `self.msg_store.extend(tokens)` on the `deque(maxlen=15000)`. -/
def storeExtend (store toks : List String) : List String :=
  takeRight (store ++ toks) 15000

/-- `MIDIProcessor.__init__` as invoked from `midi_callback` with
`message=self.msg_store` (the token deque): the constructor's first
statement `self.message_data, self.dtime = message` raises ValueError
unless the deque holds exactly 2 items, and with exactly 2 items the
following `self.hexify(self.message_data)` iterates the characters of a
token string and formats each `str` with format code `x`, raising
ValueError as well — so the construction raises for every store. -/
def midiprocessor_init_from_store (_store : List String) : Except PyErr Unit :=
  Except.error PyErr.valueError

/-- The observable outcome of one `AHMIDIProcessor.midi_callback`
invocation: the `msg_store` contents afterwards, whether the completion
check returned True, and whether an exception was caught by the
callback's handler. -/
structure CallbackOut where
  store : List String
  completed : Bool
  raised : Bool
deriving DecidableEq, Repr

/-- The body of `AHMIDIProcessor.midi_callback` after the store has
been extended: return early while incomplete (an exception inside the
completion check is caught by the callback's `except` block); on
completion the `MIDIProcessor` construction runs — when it raises, the
`except` block catches it and the `msg_store.clear()` that follows in
the `try` block is skipped, so the store is preserved; only a normal
construction reaches the clear. -/
def midi_callback_post (t : Templates) (store1 : List String) : CallbackOut :=
  match is_complete_midi_message t store1 with
  | Except.error _ => ⟨store1, false, true⟩
  | Except.ok false => ⟨store1, false, false⟩
  | Except.ok true =>
    match midiprocessor_init_from_store store1 with
    | Except.error _ => ⟨store1, true, true⟩
    | Except.ok _ => ⟨[], true, false⟩

/-- `AHMIDIProcessor.midi_callback`: hexify the chunk, extend the
store, then check completion and process. -/
def midi_callback (t : Templates) (store : List String) (chunk : List Nat) : CallbackOut :=
  midi_callback_post t (storeExtend store (hexify chunk))

/-- Iterated `midi_callback` over a sequence of chunk deliveries,
recording each invocation's outcome. -/
def callback_run (t : Templates) : List String → List (List Nat) → List CallbackOut
  | _, [] => []
  | store, c :: cs =>
    let o := midi_callback t store c
    o :: callback_run t o.store cs

/-! ## main.py — map_to_osc (the Event-to-Address Mapper) -/

/-- One segment of an address template: a literal piece or a named
Jinja2 placeholder. -/
inductive Seg where
  | lit : String → Seg
  | ph : String → Seg
deriving DecidableEq, Repr

/-- Python `str()` of an event value, as Jinja2 renders it. -/
def pyStr : Value → String
  | Value.vStr s => s
  | Value.vInt n => toString n
  | Value.vBool b => if b then "True" else "False"
  | Value.vNull => "None"

/-- Jinja2 rendering of one segment against an event: a placeholder
bound in the event renders its value; an unbound placeholder is Jinja2's
default `Undefined`, which renders as the empty string. -/
def renderSeg (e : Event) : Seg → String
  | Seg.lit s => s
  | Seg.ph n =>
    match Event.get e n with
    | some v => pyStr v
    | none => ""

/-- `Template(tpl).render(result)` for the address templates below. -/
def render (tpl : List Seg) (e : Event) : String :=
  String.join (tpl.map (renderSeg e))

/-- The `osc_path_templates` dict of `AHMIDIProcessor.map_to_osc`, with
each Jinja2 template split into literal and placeholder segments. -/
def osc_path_templates : List (String × List Seg) :=
  [("channel_name", [Seg.lit "/qu/channel/", Seg.ph "channel", Seg.lit "/name"]),
   ("channel_fader", [Seg.lit "/qu/channel/", Seg.ph "channel", Seg.lit "/fader"]),
   ("channel_pan", [Seg.lit "/qu/channel/", Seg.ph "channel", Seg.lit "/pan/", Seg.ph "mix"]),
   ("ch_preamp_source", [Seg.lit "/qu/channel/", Seg.ph "channel", Seg.lit "/preamp-source"]),
   ("ch_usb_source", [Seg.lit "/qu/channel/", Seg.ph "channel", Seg.lit "/usb-source"]),
   ("pafl_select", [Seg.lit "/qu/channel/", Seg.ph "channel", Seg.lit "/pafl-select"]),
   ("console_fwversion", [Seg.lit "/qu/console/fw-version"]),
   ("console_type", [Seg.lit "/qu/console/type"]),
   ("function", [Seg.lit "/qu/function/", Seg.ph "function"]),
   ("mmc_action", [Seg.lit "/qu/mmc/", Seg.ph "action"])]

/-- `AHMIDIProcessor.map_to_osc`: read `result.get("result_type", "")`,
drop the event when no template is registered for it, otherwise render
the template against the event and send the rendered path with
`result["data"]` (KeyError when the event has no `data` key). Returns
the `(path, value)` pair handed to `osc_client.send`. -/
def map_to_osc (e : Event) : Except PyErr (Option (String × Value)) :=
  let rtv := (Event.get e "result_type").getD (Value.vStr "")
  match osc_path_templates.find? (fun p => rtv == Value.vStr p.1) with
  | none => pure none
  | some (_, tpl) =>
    match Event.get e "data" with
    | none => Except.error PyErr.keyError
    | some d => pure (some (render tpl e, d))

/-! ## helpers/osc.py — OSCClient.send (the Publisher) -/

/-- Python `path.startswith("/")`: the first character is "/". -/
def startswith_slash (path : String) : Bool :=
  path.data.take 1 = ['/']

/-- `OSCClient.send` over the registered target names: a path (always a
`String` in this embedding, so the `isinstance` half of the check is
vacuous) that does not start with "/" raises ValueError; with no targets
the call logs a warning and returns without sending; otherwise one
message per target is dispatched, each per-target failure being caught
inside its thread — the call itself returns normally. The returned list
is the `(target, path, value)` triple of every dispatched send. -/
def OSCClient.send (targets : List String) (path : String) (value : Value) :
    Except PyErr (List (String × String × Value)) :=
  if ¬ startswith_slash path then Except.error PyErr.valueError
  else if targets = [] then Except.ok []
  else Except.ok (targets.map (fun n => (n, path, value)))

/-! ## Concrete table instances used by the closed evaluations -/

/-- A concrete `Templates` instance: empty name maps, a four-token SysEx
header, no message-type entries. -/
def T0 : Templates :=
  { message_types := []
    sysex_header := ["0xf0", "0x00", "0x1a", "0x50"]
    console_types := []
    mmc_commands := []
    channel_definitions := [] }

/-- `T0` with a message-type entry giving nibble `b` the fixed length 3. -/
def T4 : Templates :=
  { T0 with message_types := [('b', ⟨some 3, none⟩)] }

/-- `T0` with a message-type entry whose nibble `c` has no fixed length
and a subtype map giving the second-token key "05" the length 2. -/
def T5 : Templates :=
  { T0 with message_types := [('c', ⟨none, some [("05", 2)]⟩)] }

/-! ## Helper lemmas -/

/-- `l[i]` succeeds with the `getD` value when the index is in range. -/
theorem listGet_eq_ok (l : List String) (i : Nat) (h : i < l.length) :
    listGet l i = Except.ok (l.getD i "") := by
  unfold listGet
  cases hg : l.get? i with
  | none => exact absurd (List.get?_eq_none.mp hg) (by omega)
  | some a =>
    rw [List.getD_eq_getElem?_getD, ← List.get?_eq_getElem?, hg]
    rfl

/-- The store recorded by a callback outcome is always the extended
buffer. -/
theorem midi_callback_post_store (t : Templates) (store1 : List String) :
    (midi_callback_post t store1).store = store1 := by
  unfold midi_callback_post
  cases is_complete_midi_message t store1 with
  | error e => rfl
  | ok b =>
    cases b with
    | false => rfl
    | true => rfl

/-- The store recorded by a callback outcome is the extended buffer. -/
theorem midi_callback_store (t : Templates) (store : List String) (chunk : List Nat) :
    (midi_callback t store chunk).store = storeExtend store (hexify chunk) :=
  midi_callback_post_store t _

/-- A buffer whose first token is the SysEx start marker and whose last
token is not the end marker is reported incomplete. -/
theorem is_complete_f0_false (t : Templates) (s : List String)
    (hh : s.head? = some "0xf0") (hl : s.getLast? ≠ some "0xf7") :
    is_complete_midi_message t s = Except.ok false := by
  cases s with
  | nil => simp at hh
  | cons m0 rest =>
    simp only [List.head?_cons, Option.some.injEq] at hh
    subst hh
    have hb : (("0xf0" :: rest).getLast? == some "0xf7") = false :=
      beq_eq_false_iff_ne.mpr hl
    simp [is_complete_midi_message, hb]

/-! ## The claims -/

/-- C1: the Dispatcher routes an exact SysEx-marker first token to the
SysEx Decoder, but a message whose first token's first hex digit is "b"
(here the complete NRPN sequence starting with token "0xb0") is NOT
routed to the Parameter Decoder: the fallback compares
`message_type[:2]` — always the marker "0x" — against the dispatch map,
so the `result` attribute keeps its initial `{}` and no events are
produced. -/
theorem c1_dispatch_eval :
    MIDIProcessor.process T0 (T0.sysex_header ++ ["0x11", "0x01", "0x02", "0x05", "0xf7"]) =
      Except.ok (ProcResult.events
        [[("result_type", Value.vStr "console_type"), ("data", Value.vStr "Unknown")],
         [("result_type", Value.vStr "console_fwversion"), ("data", Value.vStr "2.5")]]) ∧
    MIDIProcessor.process T0 (hexify [0xb0, 0x63, 0x00, 0xb0, 0x62, 0x16, 0xb0, 0x06, 0x4b]) =
      Except.ok ProcResult.unrouted :=
  ⟨rfl, rfl⟩

/-- C2 counterexample: decoding the pan-position parameter message whose
value token at index 8 is "0x4b" (raw value 75) yields data 38, not the
37 the claim states. -/
theorem c2_counterexample :
    ((nrpnResult T0 (hexify [0xb0, 0x63, 0x00, 0xb0, 0x62, 0x16, 0xb0, 0x06, 0x4b])).toOption.bind
        (fun evs => evs.head?.bind (fun e => Event.get e "data"))) = some (Value.vInt 38) ∧
      Value.vInt 38 ≠ Value.vInt 37 :=
  ⟨rfl, by decide⟩

/-- C3: an event whose `result_type` has a registered address template
but which is missing the field named by a placeholder of that template
(here a `channel_pan` event with no `mix` field, the shape every decoded
pan event has) does NOT fail: Jinja2's default undefined renders the
placeholder as the empty string and the send proceeds with the malformed
path. -/
theorem c3_missing_placeholder_renders_empty :
    map_to_osc [("result_type", Value.vStr "channel_pan"),
                ("channel", Value.vStr "1"), ("data", Value.vInt 38)] =
      Except.ok (some ("/qu/channel/1/pan/", Value.vInt 38)) :=
  rfl

/-- C4: delivering the byte groups 0xb0, 0x63, 0x00 one per callback
against a table defining length 3 for nibble `b` (and likewise a
two-byte message whose length resolves through the nested subtype key):
the completion check reports True on the delivery that exactly
reconstructs the table-defined length, but the `MIDIProcessor`
construction raises, the exception is caught, no events are produced,
and the buffer still holds the tokens instead of being empty. -/
theorem c4_completion_eval :
    (midi_callback T4 [] [0xb0]).completed = false ∧
    (midi_callback T4 ["0xb0"] [0x63]).completed = false ∧
    midi_callback T4 ["0xb0", "0x63"] [0x00] =
      ⟨["0xb0", "0x63", "0x00"], true, true⟩ ∧
    (midi_callback T5 [] [0xc1]).completed = false ∧
    midi_callback T5 ["0xc1"] [0x05] = ⟨["0xc1", "0x05"], true, true⟩ :=
  ⟨rfl, rfl, rfl, rfl, rfl⟩

/-- C5 counterexample: a SysEx message shorter than 3 tokens leaves the
decoder's `result` as the placeholder `[{}]` — a one-element list, not
the empty (zero-event) result the claim states. -/
theorem c5_counterexample :
    sysexResult T0 ["0xf0", "0xf7"] = Except.ok [[]] ∧
      ([[]] : List Event) ≠ [] :=
  ⟨rfl, by decide⟩

/-- C8 counterexample: the Parameter Decoder raises IndexError on the
parameter-change message of six tokens whose parameter id selects the
pan decoder — `message[8]` does not exist — so decoding is not
raise-free for every dispatched parameter-change message. -/
theorem c8_counterexample :
    nrpnResult T0 (hexify [0xb0, 0x63, 0x00, 0xb0, 0x62, 0x16]) =
      Except.error PyErr.indexError :=
  rfl

/-- Reduction of an `Except` bind whose first computation succeeded. -/
theorem bind_ok_eq {α β : Type} (a : α) (f : α → Except PyErr β) :
    (do
      let x ← (Except.ok a : Except PyErr α)
      f x) = f a :=
  rfl

/-- C2 (amended): for every pan-position parameter message — the
parameter-id token at index 5 is "0x16" — the decoder parses the token
at index 8 as a hexadecimal integer and offsets it by −37 to produce the
event's data; in particular raw value 0x4B (75) yields data 38. -/
theorem c2_pan_offset (t : Templates) (message : List String) (ch v8 : String) (v : Nat)
    (h5 : listGet message 5 = Except.ok "0x16")
    (h2 : listGet message 2 = Except.ok ch)
    (h8 : listGet message 8 = Except.ok v8)
    (hv : int_hex v8 = some v) :
    nrpnResult t message =
      Except.ok [[("result_type", Value.vStr "channel_pan"),
        ("channel", Value.vStr (dictGet t.channel_definitions ch "Unknown")),
        ("data", Value.vInt ((v : Int) - 37))]] := by
  unfold nrpnResult
  rw [h5, bind_ok_eq]
  unfold handle_parameter
  rw [if_neg (by decide), if_pos rfl]
  unfold get_pan_position
  rw [h2, bind_ok_eq, h8, bind_ok_eq, hv]
  rfl

/-- C2 witness: the concrete pan message with value token "0x4b". -/
theorem c2_pan_offset_witness :
    nrpnResult T0 (hexify [0xb0, 0x63, 0x00, 0xb0, 0x62, 0x16, 0xb0, 0x06, 0x4b]) =
      Except.ok [[("result_type", Value.vStr "channel_pan"),
        ("channel", Value.vStr "Unknown"),
        ("data", Value.vInt 38)]] :=
  c2_pan_offset T0 (hexify [0xb0, 0x63, 0x00, 0xb0, 0x62, 0x16, 0xb0, 0x06, 0x4b])
    "0x00" "0x4b" 75 rfl rfl rfl rfl

/-- C5 (amended): for every SysEx message shorter than 3 tokens, or
whose stripped slice is empty, the decoder produces no decoded events:
its `result` remains the initial placeholder `[{}]` (a one-element list
holding an empty dict, which yields no address downstream), not an empty
list. -/
theorem c5_short_or_empty_placeholder (t : Templates) (message : List String)
    (h : message.length < 3 ∨ sysex_extracted t.sysex_header message = []) :
    sysexResult t message = Except.ok placeholderResult := by
  unfold sysexResult split_message
  rcases h with h | h
  · rw [if_pos h]
    rfl
  · by_cases h3 : message.length < 3
    · rw [if_pos h3]
      rfl
    · rw [if_neg h3, h]
      rfl

/-- C5 witness: the two-token message. -/
theorem c5_witness : sysexResult T0 ["0xf0", "0xf7"] = Except.ok placeholderResult :=
  c5_short_or_empty_placeholder T0 ["0xf0", "0xf7"] (Or.inl (by decide))

/-- C6: for every header template and console-type map, a SysEx
device-identity message (action byte 0x11) with a 3-token payload yields
exactly two events in order — the console-type event with the device id
resolved through the console-type map (default "Unknown"), then the
firmware-version event whose data joins the two hex-parsed components
with a dot, each rendered in decimal. -/
theorem c6_console_identity (t : Templates) (box maj minr : String) (vmaj vmin : Nat)
    (hmaj : int_hex maj = some vmaj) (hmin : int_hex minr = some vmin) :
    sysexResult t (t.sysex_header ++ ["0x11", box, maj, minr, "0xf7"]) =
      Except.ok [[("result_type", Value.vStr "console_type"),
                  ("data", Value.vStr (dictGet t.console_types box "Unknown"))],
                 [("result_type", Value.vStr "console_fwversion"),
                  ("data", Value.vStr (toString vmaj ++ "." ++ toString vmin))]] := by
  have hsplit : split_message t.sysex_header
      (t.sysex_header ++ ["0x11", box, maj, minr, "0xf7"]) =
      some ("0x11", [box, maj, minr]) := by
    unfold split_message sysex_extracted
    have hlen : ¬ (t.sysex_header ++ ["0x11", box, maj, minr, "0xf7"]).length < 3 := by
      simp only [List.length_append, List.length_cons]
      omega
    rw [if_neg hlen, List.take_left, if_pos rfl, List.drop_left]
    rfl
  unfold sysexResult
  rw [hsplit]
  show (if ("0x11" : String) ≠ "" ∧ ([box, maj, minr] : List String) ≠ [] then
      handle_action t "0x11" [box, maj, minr] else pure placeholderResult) =
    Except.ok [[("result_type", Value.vStr "console_type"),
                ("data", Value.vStr (dictGet t.console_types box "Unknown"))],
               [("result_type", Value.vStr "console_fwversion"),
                ("data", Value.vStr (toString vmaj ++ "." ++ toString vmin))]]
  rw [if_pos ⟨by decide, by simp⟩]
  unfold handle_action
  rw [if_neg (by decide), if_pos rfl]
  unfold get_console_info
  show (do
      let a ← ofOption (int_hex maj) PyErr.valueError
      let b ← ofOption (int_hex minr) PyErr.valueError
      pure [[("result_type", Value.vStr "console_type"),
             ("data", Value.vStr (dictGet t.console_types box "Unknown"))],
            [("result_type", Value.vStr "console_fwversion"),
             ("data", Value.vStr (toString a ++ "." ++ toString b))]] :
      Except PyErr (List Event)) =
    Except.ok [[("result_type", Value.vStr "console_type"),
                ("data", Value.vStr (dictGet t.console_types box "Unknown"))],
               [("result_type", Value.vStr "console_fwversion"),
                ("data", Value.vStr (toString vmaj ++ "." ++ toString vmin))]]
  rw [hmaj, hmin]
  rfl

/-- C6 witness: the concrete identity message with box 0x01 and
firmware components 0x02 and 0x05. -/
theorem c6_console_identity_witness :
    sysexResult T0 (T0.sysex_header ++ ["0x11", "0x01", "0x02", "0x05", "0xf7"]) =
      Except.ok [[("result_type", Value.vStr "console_type"),
                  ("data", Value.vStr "Unknown")],
                 [("result_type", Value.vStr "console_fwversion"),
                  ("data", Value.vStr "2.5")]] :=
  c6_console_identity T0 "0x01" "0x02" "0x05" 2 5 rfl rfl

set_option maxRecDepth 4000

/-- A callback invocation whose completion check returned False does
not report completion. -/
theorem midi_callback_post_completed_false (t : Templates) (s : List String)
    (h : is_complete_midi_message t s = Except.ok false) :
    (midi_callback_post t s).completed = false := by
  unfold midi_callback_post
  rw [h]

/-- C7: over any delivery sequence during which the reassembly buffer
always opens with the SysEx start marker and the End-of-Exclusive marker
never arrives as the buffer's last token, no callback invocation ever
reports completion, however many bytes accumulate. -/
theorem c7_sysex_never_completes (t : Templates) (store : List String)
    (chunks : List (List Nat)) :
    (∀ o ∈ callback_run t store chunks, o.store.head? = some "0xf0") →
    (∀ o ∈ callback_run t store chunks, o.store.getLast? ≠ some "0xf7") →
    ∀ o ∈ callback_run t store chunks, o.completed = false := by
  induction chunks generalizing store with
  | nil =>
    intro _ _ o ho
    simp only [callback_run] at ho
    exact (List.not_mem_nil o ho).elim
  | cons c cs ih =>
    intro hHead hLast o ho
    have hrun : callback_run t store (c :: cs) =
        midi_callback t store c ::
          callback_run t (midi_callback t store c).store cs := rfl
    rw [hrun] at hHead hLast ho
    rcases List.mem_cons.mp ho with heq | htail
    · have h0h := hHead _ (List.mem_cons_self _ _)
      have h0l := hLast _ (List.mem_cons_self _ _)
      rw [midi_callback_store] at h0h h0l
      have hic := is_complete_f0_false t _ h0h h0l
      rw [heq]
      exact midi_callback_post_completed_false t _ hic
    · exact ih (midi_callback t store c).store
        (fun o2 ho2 => hHead o2 (List.mem_cons_of_mem _ ho2))
        (fun o2 ho2 => hLast o2 (List.mem_cons_of_mem _ ho2)) o htail

/-- C7 witness: a SysEx start followed by an unterminated byte. -/
theorem c7_witness : (midi_callback T4 [] [0xf0]).completed = false :=
  c7_sysex_never_completes T4 [] [[0xf0], [0x01]] (by decide) (by decide)
    (midi_callback T4 [] [0xf0]) (by decide)

/-- On a message of at least 9 tokens whose value token parses as hex,
the Parameter Decoder returns normally, with either the placeholder or a
single three-field event whose channel is the mapped `message[2]`. -/
theorem nrpn_shape (t : Templates) (message : List String)
    (h9 : 9 ≤ message.length)
    (h8s : (int_hex (message.getD 8 "")).isSome = true) :
    nrpnResult t message = Except.ok placeholderResult ∨
    ∃ rt d, nrpnResult t message = Except.ok
      [[("result_type", Value.vStr rt),
        ("channel",
          Value.vStr (dictGet t.channel_definitions (message.getD 2 "") "Unknown")),
        ("data", d)]] := by
  have h5 := listGet_eq_ok message 5 (by omega)
  have h2 := listGet_eq_ok message 2 (by omega)
  have h8 := listGet_eq_ok message 8 (by omega)
  obtain ⟨n, hn⟩ := Option.isSome_iff_exists.mp h8s
  unfold nrpnResult
  rw [h5, bind_ok_eq]
  unfold handle_parameter
  by_cases e12 : message.getD 5 "" = "0x12"
  · rw [if_pos e12]
    unfold get_ch_usb_source
    rw [h2, bind_ok_eq, h8, bind_ok_eq]
    right
    exact ⟨_, _, rfl⟩
  · rw [if_neg e12]
    by_cases e16 : message.getD 5 "" = "0x16"
    · rw [if_pos e16]
      unfold get_pan_position
      rw [h2, bind_ok_eq, h8, bind_ok_eq, hn]
      right
      exact ⟨_, _, rfl⟩
    · rw [if_neg e16]
      by_cases e17 : message.getD 5 "" = "0x17"
      · rw [if_pos e17]
        unfold get_fader_position
        rw [h2, bind_ok_eq]
        right
        exact ⟨_, _, rfl⟩
      · rw [if_neg e17]
        by_cases e51 : message.getD 5 "" = "0x51"
        · rw [if_pos e51]
          unfold get_pafl_select
          rw [h2, bind_ok_eq, h8, bind_ok_eq, hn]
          right
          exact ⟨_, _, rfl⟩
        · rw [if_neg e51]
          by_cases e57 : message.getD 5 "" = "0x57"
          · rw [if_pos e57]
            unfold get_ch_preamp_source
            rw [h2, bind_ok_eq, h8, bind_ok_eq]
            right
            exact ⟨_, _, rfl⟩
          · rw [if_neg e57]
            left
            rfl

/-- C8 (amended): for every parameter-change message of at least 9
hex-byte tokens (the shape of a fully reassembled NRPN sequence) and
every channel-definition map, decoding raises no error; and when the
channel-index token at index 2 is absent from the channel map, every
produced event's channel field is the literal string "Unknown". -/
theorem c8_decode_total (t : Templates) (message : List String)
    (h9 : 9 ≤ message.length)
    (hhex : ∀ tok ∈ message, (int_hex tok).isSome = true) :
    exceptIsOk (nrpnResult t message) = true ∧
    (lookupStr t.channel_definitions (message.getD 2 "") = none →
      ∀ evs, nrpnResult t message = Except.ok evs →
      ∀ ev ∈ evs, ∀ v, Event.get ev "channel" = some v →
        v = Value.vStr "Unknown") := by
  have h8lt : 8 < message.length := by omega
  have hmem8 : message.getD 8 "" ∈ message := by
    have hg : message.getD 8 "" = message.get ⟨8, h8lt⟩ := by
      rw [List.getD_eq_getElem?_getD, List.getElem?_eq_getElem h8lt]
      rfl
    rw [hg]
    exact List.get_mem message 8 h8lt
  have h8s := hhex _ hmem8
  rcases nrpn_shape t message h9 h8s with hres | ⟨rt, d, hres⟩
  · constructor
    · rw [hres]
      rfl
    · intro _ evs hevs ev hmemv v hget
      rw [hres] at hevs
      injection hevs with h
      subst h
      rcases List.mem_singleton.mp hmemv with rfl
      simp [Event.get] at hget
  · constructor
    · rw [hres]
      rfl
    · intro hch evs hevs ev hmemv v hget
      rw [hres] at hevs
      injection hevs with h
      subst h
      rcases List.mem_singleton.mp hmemv with rfl
      rw [show Event.get [("result_type", Value.vStr rt),
          ("channel",
            Value.vStr (dictGet t.channel_definitions (message.getD 2 "") "Unknown")),
          ("data", d)] "channel" =
          some (Value.vStr (dictGet t.channel_definitions (message.getD 2 "") "Unknown"))
        from rfl] at hget
      injection hget with hv
      rw [← hv]
      unfold dictGet
      rw [hch]
      rfl

/-- C8 witness: the decoder returns normally on the 9-token pan
message. -/
theorem c8_witness :
    exceptIsOk (nrpnResult T0
      (hexify [0xb0, 0x63, 0x00, 0xb0, 0x62, 0x16, 0xb0, 0x06, 0x4b])) = true :=
  (c8_decode_total T0 (hexify [0xb0, 0x63, 0x00, 0xb0, 0x62, 0x16, 0xb0, 0x06, 0x4b])
    (by decide) (by decide)).1

/-- C9: the Publisher's send raises the invalid-argument error exactly
when the address does not begin with "/", and a valid address with zero
registered destinations returns normally with nothing sent. -/
theorem c9_send_iff (targets : List String) (path : String) (value : Value) :
    (OSCClient.send targets path value = Except.error PyErr.valueError ↔
      startswith_slash path = false) ∧
    (startswith_slash path = true → OSCClient.send [] path value = Except.ok []) := by
  unfold OSCClient.send
  by_cases hp : startswith_slash path = true
  · rw [hp]
    constructor
    · simp only [Bool.true_eq_false, iff_false]
      cases targets with
      | nil => simp
      | cons a l => simp
    · intro _
      simp
  · have hp2 : startswith_slash path = false := by
      cases h : startswith_slash path with
      | false => rfl
      | true => exact absurd h hp
    rw [hp2]
    constructor
    · simp
    · intro h
      exact absurd h (by decide)

/-- C9 witness: a valid address with no destinations is a no-op, and a
relative address raises. -/
theorem c9_witness :
    OSCClient.send [] "/qu/console/type" Value.vNull = Except.ok [] ∧
    OSCClient.send ["main"] "qux" Value.vNull = Except.error PyErr.valueError :=
  ⟨(c9_send_iff [] "/qu/console/type" Value.vNull).2 (by decide),
   (c9_send_iff ["main"] "qux" Value.vNull).1.mpr (by decide)⟩

/-- C10 counterexample: `hexify` is not the elementwise token map on a
129-byte sequence — the deque capacity of 128 silently drops the first
byte. -/
theorem c10_counterexample :
    hexify (List.replicate 128 0 ++ [1]) ≠
      (List.replicate 128 0 ++ [1]).map (fun b => to_padded_hex b 2) := by
  intro h
  have hlen := congrArg List.length h
  simp [hexify, takeRight, List.length_append, List.length_replicate] at hlen

/-- C10 (amended): for every byte 0 ≤ n ≤ 255 the token is the
4-character string "0x" followed by two lowercase hex digits and parses
back to n; and `hexify` is the order- and value-preserving elementwise
token map on byte sequences of at most 128 bytes (its deque capacity —
longer sequences are truncated to the last 128). -/
theorem c10_roundtrip :
    (∀ n : Nat, n ≤ 255 →
      (to_padded_hex n 2).length = 4 ∧
      (to_padded_hex n 2).data.take 2 = ['0', 'x'] ∧
      (∀ c ∈ (to_padded_hex n 2).data.drop 2, isLowerHexDigit c = true) ∧
      int_hex (to_padded_hex n 2) = some n) ∧
    (∀ bytes : List Nat, bytes.length ≤ 128 →
      hexify bytes = bytes.map (fun b => to_padded_hex b 2)) := by
  constructor
  · decide
  · intro bytes hb
    unfold hexify takeRight
    rw [List.length_map]
    have hz : bytes.length - 128 = 0 := by omega
    rw [hz, List.drop_zero]

/-- C10 witness: the token of byte 0xb0 round-trips, and a two-byte
sequence maps elementwise. -/
theorem c10_witness :
    int_hex (to_padded_hex 176 2) = some 176 ∧ hexify [176, 99] = ["0xb0", "0x63"] := by
  refine ⟨(c10_roundtrip.1 176 (by decide)).2.2.2, ?_⟩
  rw [c10_roundtrip.2 [176, 99] (by decide)]
  rfl

end AHMIDI
